import Mathlib

/-
Shallow embedding of the two tools of the avs-device-sdk auxiliary repository:
  * tools/Testing/android_test.py  (DeviceTestRunner)
  * tools/AuthServer/AuthServer.py (AuthBroker)
Python strings are modelled as Lean String (byte strings, ASCII in practice);
Python dicts holding the authDelegate section as association lists; the file
system and the HTTP token endpoint as explicit parameters; fallible Python
operations (out-of-range indexing, int() on a non-numeric string) as Option /
Except values.
-/

/-! ## Python string primitives used by both scripts -/

/-- Python 2 whitespace for str: the characters of string.whitespace,
also the set matched by the regex class backslash-s. -/
def isPySpace (c : Char) : Bool :=
  c == ' ' || c == '\t' || c == '\n' || c == '\r' ||
  c == Char.ofNat 11 || c == Char.ofNat 12

/-- str.splitlines for Python 2 byte strings: line boundaries are LF, CR and
CRLF; a trailing boundary does not produce a final empty line. -/
def pySplitlinesGo : List Char → List Char → List String
  | [], acc => if acc.isEmpty then [] else [String.mk acc.reverse]
  | '\r' :: '\n' :: rest, acc => String.mk acc.reverse :: pySplitlinesGo rest []
  | '\r' :: rest, acc => String.mk acc.reverse :: pySplitlinesGo rest []
  | '\n' :: rest, acc => String.mk acc.reverse :: pySplitlinesGo rest []
  | c :: rest, acc => pySplitlinesGo rest (c :: acc)

def py_splitlines (s : String) : List String :=
  pySplitlinesGo s.data []

/-- Python str.strip(): remove leading and trailing whitespace. -/
def pyStrip (l : List Char) : List Char :=
  ((l.dropWhile isPySpace).reverse.dropWhile isPySpace).reverse

/-- Value of a nonempty all-digit character list, base 10. -/
def digitsVal (l : List Char) : Option Nat :=
  if l ≠ [] ∧ l.all Char.isDigit then
    some (l.foldl (fun acc c => acc * 10 + (c.toNat - 48)) 0)
  else
    none

/-- Python 2 int(str): optional surrounding whitespace, an optional single
sign, then a nonempty run of decimal digits; none models ValueError. -/
def py_int (s : String) : Option Int :=
  match pyStrip s.data with
  | '-' :: ds => (digitsVal ds).map (fun n => -(n : Int))
  | '+' :: ds => (digitsVal ds).map (fun n => (n : Int))
  | ds => (digitsVal ds).map (fun n => (n : Int))

/-! ## DeviceTestRunner: tools/Testing/android_test.py -/

/-- Python exceptions raised by parse_output. -/
inductive PyError where
  | indexError
  | valueError
deriving DecidableEq, Repr

/-- posixpath.basename: the part of the path after the last forward slash. -/
def basename (p : String) : String :=
  String.mk ((p.data.reverse.takeWhile (fun c => c != '/')).reverse)

/-- process_inputs (android_test.py lines 83-99): walk the input tokens in
order; a token naming an existing path is pushed to the device and replaced
by inputs_folder + '/' + its basename, any other token is kept as-is.
Returns the processed argument list (the local variable ret, later
space-joined by string.join) together with the list of local paths pushed
via adb, in order.  The local file system is the predicate pathExists. -/
def process_inputs (pathExists : String → Bool) (inputs_folder : String) :
    List String → List String × List String
  | [] => ([], [])
  | t :: ts =>
    let rest := process_inputs pathExists inputs_folder ts
    if pathExists t then
      ((inputs_folder ++ "/" ++ basename t) :: rest.1, t :: rest.2)
    else
      (t :: rest.1, rest.2)

/-- string.join(ret): the value process_inputs actually returns,
space-separated. -/
def process_inputs_joined (pathExists : String → Bool)
    (inputs_folder : String) (inputs : List String) : String :=
  String.intercalate " " (process_inputs pathExists inputs_folder inputs).1

/-- parse_output (android_test.py lines 102-106): split the captured output
into lines, print all but the last newline-joined, and parse the last line
as the exit status.  The first component is what is printed; the second is
the returned integer or the Python exception that is raised
(lines[-1] on an empty list: IndexError; int() on a bad string: ValueError).
The print on line 105 executes before the int() on line 106, so the printed
text is produced in every case. -/
def parse_output (output : String) : String × Except PyError Int :=
  let lines := py_splitlines output
  let printed := String.intercalate "\n" lines.dropLast
  match lines.getLast? with
  | none => (printed, Except.error PyError.indexError)
  | some lastLine =>
    match py_int lastLine with
    | none => (printed, Except.error PyError.valueError)
    | some n => (printed, Except.ok n)

/-! ## AuthBroker: tools/AuthServer/AuthServer.py

The authDelegate section of the config file is a Python dict of string keys
and string values, modelled as an association list kept in insertion order.
The token endpoint is external: its responses (an HTTP status for the
startup refresh POST, and status/text/parsed-json for the authorization-code
POST) enter the model as parameters. -/

/-- The authDelegate dict: keys to string values. -/
abbrev Dict := List (String × String)

/-- Python dict.has_key. -/
def hasKey (d : Dict) (k : String) : Bool :=
  d.any (fun p => p.1 == k)

/-- Python dict lookup d[k]; total with a default, used only where the
script has already checked the key is present. -/
def getKey (d : Dict) (k : String) : String :=
  (((d.find? (fun p => p.1 == k)).map Prod.snd)).getD ""

/-- Python dict assignment d[k] = v. -/
def setKey (d : Dict) (k v : String) : Dict :=
  if hasKey d k then d.map (fun p => if p.1 == k then (k, v) else p)
  else d ++ [(k, v)]

/-- AuthServer.py line 38. -/
def redirectUri : String := "http://localhost:3000/authresponse"

/-- AuthServer.py line 95. -/
def requiredKeys : List String :=
  ["clientId", "clientSecret", "productId", "deviceSerialNumber"]

/-- Outcome of the module-level startup code of AuthServer.py (lines
94-127), starting from the parsed authDelegate dict.  exitCode = some c
means the process calls sys.exit(c) before the Flask app is started;
exitCode = none means execution reaches app.run.  networkCalls counts the
POSTs made to the token endpoint during startup; messages are the printed
diagnostics in order. -/
structure StartupResult where
  exitCode : Option Nat
  networkCalls : Nat
  messages : List String
deriving DecidableEq, Repr

/-- map(authDelegateDict.has_key, requiredKeys).index(False): the first
required key missing from the dict (line 97); ValueError (i.e. none) when
every required key is present. -/
def firstMissingKey (d : Dict) : Option String :=
  requiredKeys.find? (fun k => !(hasKey d k))

/-- AuthServer.py lines 94-127.  tokenRefreshStatus is the HTTP status the
token endpoint returns for the grant_type=refresh_token POST; it is only
consulted when that POST actually happens (refreshToken key present). -/
def startup (d : Dict) (tokenRefreshStatus : Nat) : StartupResult :=
  match firstMissingKey d with
  | some missingKey =>
    { exitCode := some 1
      networkCalls := 0
      messages :=
        ["Missing key: \"" ++ missingKey ++ "\". The list of required keys are:",
         " * " ++ String.intercalate "\n * " requiredKeys,
         "Exiting."] }
  | none =>
    if hasKey d "refreshToken" then
      if tokenRefreshStatus == 200 then
        { exitCode := some 0
          networkCalls := 1
          messages := ["You have a valid refresh token already in the file."] }
      else
        { exitCode := none
          networkCalls := 1
          messages :=
            ["The refresh request failed with the response code " ++
             toString tokenRefreshStatus ++
             ". This might be due to a bad refresh token or bad client data. " ++
             "We will continue with getting a refresh token, discarding the one in the file.\n"] }
    else
      { exitCode := some 0
        networkCalls := 0
        messages := ["Missing key: \"refreshToken"] }

/-! ### urllib.urlencode -/

/-- Uppercase hex digit of n < 16. -/
def hexUpper (n : Nat) : Char :=
  if n < 10 then Char.ofNat (48 + n) else Char.ofNat (55 + n)

/-- Percent-encoding of one byte. -/
def encodeByte (n : Nat) : List Char :=
  ['%', hexUpper (n / 16 % 16), hexUpper (n % 16)]

/-- urllib.always_safe: ASCII letters, digits, underscore, dot, hyphen. -/
def alwaysSafe (c : Char) : Bool :=
  c.isAlphanum || c == '_' || c == '.' || c == '-'

/-- urllib.quote_plus on one character: space becomes '+', safe characters
stay, everything else is percent-encoded. -/
def quotePlusChar (c : Char) : List Char :=
  if c == ' ' then ['+']
  else if alwaysSafe c then [c]
  else encodeByte c.toNat

def quotePlusList : List Char → List Char
  | [] => []
  | c :: cs => quotePlusChar c ++ quotePlusList cs

/-- urllib.quote_plus on a byte string. -/
def quote_plus (s : String) : String :=
  String.mk (quotePlusList s.data)

/-- urllib.urlencode: k=v pairs quoted with quote_plus and joined by
ampersands.  The source passes a dict literal; its pairs are modelled in
the order they are written in the source (the claims checked below are
insensitive to pair order). -/
def urlencodePairs : List (String × String) → String
  | [] => ""
  | [p] => quote_plus p.1 ++ "=" ++ quote_plus p.2
  | p :: ps => quote_plus p.1 ++ "=" ++ quote_plus p.2 ++ "&" ++ urlencodePairs ps

/-! ### The two Flask routes -/

/-- The scopeData JSON text built by index() (lines 131-136); the doubled
braces of the Python format string are literal braces. -/
def scopeData (d : Dict) : String :=
  "\x7b\"alexa:all\":\x7b\"productID\":\"" ++ getKey d "productId" ++
  "\",\"productInstanceAttributes\":\x7b\"deviceSerialNumber\":\"" ++
  getKey d "deviceSerialNumber" ++ "\"\x7d\x7d\x7d"

/-- The LWA authorization URL built by index() (lines 137-143). -/
def lwaUrl (d : Dict) : String :=
  "https://www.amazon.com/ap/oa/?" ++ urlencodePairs
    [("scope", "alexa:all"),
     ("scope_data", scopeData d),
     ("client_id", getKey d "clientId"),
     ("response_type", "code"),
     ("redirect_uri", redirectUri)]

/-- The redirect target GET / would answer with, if the process is still
alive to serve it: startup must have reached app.run (exitCode = none),
otherwise there is no server and no response. -/
def servedIndex (d : Dict) (tokenRefreshStatus : Nat) : Option String :=
  if (startup d tokenRefreshStatus).exitCode = none then some (lwaUrl d)
  else none

/-- shutdown() (lines 27-33): its return text depends on whether the
werkzeug server exposes a programmatic stop. -/
def shutdown (werkzeugAvailable : Bool) : String :=
  if werkzeugAvailable then
    "Server is shutting down, so you can close this window."
  else
    "You can close this window and terminate the script."

/-- Mutable module state visible to the request handlers:
authDelegateDict, the startup-time token value saved in
defaultRefreshTokenString (line 116), and the config file's content. -/
structure ServerState where
  authDelegateDict : Dict
  defaultRefreshTokenString : String
  fileContent : String
deriving DecidableEq, Repr

/-- index() (lines 129-144): computes the LWA URL from the config and
returns a redirect to it; it assigns nothing. -/
def index (st : ServerState) : ServerState × String :=
  (st, lwaUrl st.authDelegateDict)

/-! ### The regex rewrite of get_refresh_token (lines 187-190)

stringToFind is built from literal pieces and backslash-s-star gaps, with
the old token inserted through re.escape (so it matches literally).  The
pattern is flattened to a list of atoms: a gap atom (zero or more whitespace
characters, greedy with backtracking) or a single literal character. -/

inductive Atom where
  | gap : Atom
  | chr : Char → Atom
deriving DecidableEq, Repr

def litAtoms (s : String) : List Atom :=
  s.data.map Atom.chr

/-- stringToFind (lines 188-189) as an atom list: gap, quote, gap,
refreshToken, gap, quote, gap, colon, gap, quote, gap, the escaped old
token, gap, quote, gap, comma. -/
def tokenPattern (old : String) : List Atom :=
  [Atom.gap, Atom.chr '\"', Atom.gap] ++ litAtoms "refreshToken" ++
  [Atom.gap, Atom.chr '\"', Atom.gap, Atom.chr ':', Atom.gap, Atom.chr '\"', Atom.gap] ++
  litAtoms old ++
  [Atom.gap, Atom.chr '\"', Atom.gap, Atom.chr ',']

/-- Match an atom list at the start of the text, returning the remainder of
the text after the match.  A gap is greedy: it prefers to consume a leading
whitespace character and backtracks if the rest then fails, exactly like
the regex engine's backslash-s-star.  Every recursive call shrinks the sum
of the two list lengths, so that sum serves as structural fuel. -/
def matchAtomsGo : Nat → List Atom → List Char → Option (List Char)
  | _, [], s => some s
  | _, Atom.chr _ :: _, [] => none
  | 0, _, _ => none
  | fuel + 1, Atom.chr c :: as, x :: xs =>
    if c == x then matchAtomsGo fuel as xs else none
  | fuel + 1, Atom.gap :: as, [] => matchAtomsGo fuel as []
  | fuel + 1, Atom.gap :: as, x :: xs =>
    if isPySpace x then
      match matchAtomsGo fuel (Atom.gap :: as) xs with
      | some r => some r
      | none => matchAtomsGo fuel as (x :: xs)
    else
      matchAtomsGo fuel as (x :: xs)

def matchAtoms (pat : List Atom) (s : List Char) : Option (List Char) :=
  matchAtomsGo (pat.length + s.length) pat s

/-- True when the pattern matches at some position of the text. -/
def atomsOccur (pat : List Atom) : List Char → Bool
  | [] => (matchAtoms pat []).isSome
  | x :: xs => (matchAtoms pat (x :: xs)).isSome || atomsOccur pat xs

/-- re.sub's scan: at each position try the pattern; on a match emit the
replacement and resume after the consumed text, otherwise keep the
character and move on.  Fuel is the text length; every step consumes at
least one character (the pattern contains mandatory literal characters), so
the fuel never runs out on the initial call. -/
def reSubGo (pat : List Atom) (repl : List Char) : Nat → List Char → List Char
  | _, [] => []
  | 0, s => s
  | fuel + 1, x :: xs =>
    match matchAtoms pat (x :: xs) with
    | some rest => repl ++ reSubGo pat repl fuel rest
    | none => x :: reSubGo pat repl fuel xs

/-- re.sub(stringToFind, replaceWith, fileContent) as performed on line 190. -/
def re_sub (old repl text : String) : String :=
  String.mk (reSubGo (tokenPattern old) repl.data text.data.length text.data)

/-! ### get_refresh_token (lines 147-192) -/

/-- What the handler observes of the token endpoint's response to the
grant_type=authorization_code POST: the HTTP status, the raw body text, and
the refresh_token field of the parsed JSON body when present. -/
structure TokenResponse where
  status_code : Nat
  text : String
  refresh_token : Option String
deriving DecidableEq, Repr

/-- get_refresh_token (lines 147-192), on the success path of the two
file opens (an IOError on open is an orthogonal environment failure).
If the response JSON has no refresh_token key the handler returns the error
page and touches neither the dict nor the file.  Otherwise it assigns the
new token into the dict, reads the file, rewrites it with the re.sub of
lines 187-190 using the startup-time defaultRefreshTokenString, writes the
result back and returns the success page. -/
def get_refresh_token (wz : Bool) (st : ServerState) (resp : TokenResponse) :
    ServerState × String :=
  match resp.refresh_token with
  | none =>
    (st,
     "LWA did not return a refresh token, with the response code " ++
     toString resp.status_code ++
     ".  This is most likely due to an error. Check the following JSON response:<br/>" ++
     resp.text ++ "<br/>" ++ shutdown wz)
  | some tok =>
    let newDict := setKey st.authDelegateDict "refreshToken" tok
    let replaceWith := "\n\t\t\"refreshToken\":\"" ++ tok ++ "\","
    let newContent := re_sub st.defaultRefreshTokenString replaceWith st.fileContent
    ({ st with authDelegateDict := newDict, fileContent := newContent },
     "<h1>The file is written successfully.<br/>" ++ shutdown wz ++ "</h1>")

/-! ## Helper notions -/

/-- needle is a leading piece of hay. -/
def leadMatch : List Char → List Char → Bool
  | [], _ => true
  | _ :: _, [] => false
  | a :: as, b :: bs => a == b && leadMatch as bs

/-- needle occurs somewhere inside hay. -/
def containsStr (needle : List Char) : List Char → Bool
  | [] => leadMatch needle []
  | x :: xs => leadMatch needle (x :: xs) || containsStr needle xs

/-- The needle string occurs as a contiguous substring of the hay string. -/
def strContains (hay needle : String) : Bool :=
  containsStr needle.data hay.data

/-- All characters of the string are in urllib's always-safe set. -/
def safeStr (s : String) : Bool :=
  s.data.all alwaysSafe

/-- A concrete config file in the SDK's documented shape, with refreshToken
as the last field of authDelegate and hence no trailing comma after it. -/
def lastFieldConfigFile : String :=
  "\x7b\n    \"authDelegate\": \x7b\n        \"clientId\": \"client-id-1\",\n        \"clientSecret\": \"client-secret-1\",\n        \"productId\": \"product-1\",\n        \"deviceSerialNumber\": \"123456\",\n        \"refreshToken\": \"OLDTOKEN\"\n    \x7d\n\x7d\n"

/-- The server state after startup loaded lastFieldConfigFile. -/
def lastFieldServerState : ServerState :=
  { authDelegateDict :=
      [("clientId", "client-id-1"), ("clientSecret", "client-secret-1"),
       ("productId", "product-1"), ("deviceSerialNumber", "123456"),
       ("refreshToken", "OLDTOKEN")],
    defaultRefreshTokenString := "OLDTOKEN",
    fileContent := lastFieldConfigFile }

/-- A token-endpoint success response carrying refresh_token NEWTOKEN. -/
def newTokenResponse : TokenResponse :=
  { status_code := 200,
    text := "\x7b\"refresh_token\":\"NEWTOKEN\"\x7d",
    refresh_token := some "NEWTOKEN" }

set_option maxRecDepth 100000

/-! ## Helper lemmas -/

/-- Every string occurs at its own front. -/
theorem leadMatch_append_self (n r : List Char) : leadMatch n (n ++ r) = true := by
  induction n with
  | nil => rfl
  | cons a as ih => simp [leadMatch, ih]

theorem containsStr_nil_needle (s : List Char) : containsStr [] s = true := by
  induction s with
  | nil => rfl
  | cons x xs ih => simp [containsStr, leadMatch]

theorem containsStr_here (n r : List Char) : containsStr n (n ++ r) = true := by
  cases n with
  | nil => simpa using containsStr_nil_needle r
  | cons a as =>
    simp only [containsStr, Bool.or_eq_true]
    exact Or.inl (leadMatch_append_self (a :: as) r)

theorem containsStr_extend (n a s : List Char) (h : containsStr n s = true) :
    containsStr n (a ++ s) = true := by
  induction a with
  | nil => simpa using h
  | cons x a ih => simp [containsStr, ih]

/-- A string built as front ++ piece ++ back contains the piece. -/
theorem strContains_middle (a t b : String) : strContains (a ++ t ++ b) t = true := by
  show containsStr t.data (a ++ t ++ b).data = true
  have hdata : (a ++ t ++ b).data = a.data ++ (t.data ++ b.data) := by
    simp [String.data_append]
  rw [hdata]
  exact containsStr_extend _ _ _ (containsStr_here _ _)

theorem quotePlusList_append (a b : List Char) :
    quotePlusList (a ++ b) = quotePlusList a ++ quotePlusList b := by
  induction a with
  | nil => rfl
  | cons c cs ih => simp [quotePlusList, ih]

theorem quotePlusChar_safe (c : Char) (h : alwaysSafe c = true) :
    quotePlusChar c = [c] := by
  by_cases hc : c = ' '
  · subst hc
    exact absurd h (by decide)
  · simp [quotePlusChar, hc, h]

theorem quotePlusList_safe (l : List Char) (h : l.all alwaysSafe = true) :
    quotePlusList l = l := by
  induction l with
  | nil => rfl
  | cons c cs ih =>
    simp only [List.all_cons, Bool.and_eq_true] at h
    simp [quotePlusList, quotePlusChar_safe c h.1, ih h.2]

/-- quote_plus is the identity on strings of always-safe characters. -/
theorem quote_plus_safe (s : String) (h : s.data.all alwaysSafe = true) :
    quote_plus s = s := by
  cases s with
  | mk d => simp [quote_plus, quotePlusList_safe d h]

/-- When the pattern matches nowhere, the re.sub scan reproduces the text. -/
theorem reSubGo_id (pat : List Atom) (repl : List Char) :
    ∀ (fuel : Nat) (s : List Char), s.length ≤ fuel →
      atomsOccur pat s = false → reSubGo pat repl fuel s = s := by
  intro fuel
  induction fuel with
  | zero =>
    intro s hlen _
    have : s = [] := by
      cases s with
      | nil => rfl
      | cons x xs => simp at hlen
    subst this
    rfl
  | succ fuel ih =>
    intro s hlen hocc
    cases s with
    | nil => rfl
    | cons x xs =>
      simp only [atomsOccur, Bool.or_eq_false_iff] at hocc
      have hmatch : matchAtoms pat (x :: xs) = none := by
        cases hm : matchAtoms pat (x :: xs) with
        | none => rfl
        | some r => rw [hm] at hocc; simp at hocc
      have hxs : xs.length ≤ fuel := by
        simpa using Nat.le_of_succ_le_succ hlen
      simp only [reSubGo, hmatch]
      rw [ih xs hxs hocc.2]

/-- re.sub leaves the file text unchanged when the pattern does not occur. -/
theorem re_sub_id (old repl text : String)
    (h : atomsOccur (tokenPattern old) text.data = false) :
    re_sub old repl text = text := by
  cases text with
  | mk d =>
    simp [re_sub, reSubGo_id (tokenPattern old) repl.data d.length d (Nat.le_refl _) h]

/-! ## Claims -/

/-- C6: for captured remote-execution output with at least two lines whose
last line parses as a decimal integer n, parse_output prints all lines
except the last, newline-joined, and returns exit status n; when the last
line does not parse as an integer, the run raises the ValueError reported
as MalformedTestOutput. -/
theorem C6_parse_output_exit_code (output lastLine : String)
    (hlast : (py_splitlines output).getLast? = some lastLine)
    (_hlen : 2 ≤ (py_splitlines output).length) :
    (∀ n : Int, py_int lastLine = some n →
      parse_output output =
        (String.intercalate "\n" (py_splitlines output).dropLast, Except.ok n)) ∧
    (py_int lastLine = none →
      (parse_output output).2 = Except.error PyError.valueError) := by
  constructor
  · intro n hn
    simp [parse_output, hlast, hn]
  · intro hn
    simp [parse_output, hlast, hn]

theorem C6_parse_output_exit_code_witness :
    parse_output "hello\nworld\n0" = ("hello\nworld", Except.ok 0) :=
  (C6_parse_output_exit_code "hello\nworld\n0" "0" (by decide) (by decide)).1 0 (by decide)

/-- C10: parse_output presupposes at least one line: on empty output the
split yields no lines and the lines[-1] access is out of range
(IndexError); with at least one line that access never fails. -/
theorem C10_parse_output_needs_a_line :
    py_splitlines "" = [] ∧
    (parse_output "").2 = Except.error PyError.indexError ∧
    ∀ output : String, py_splitlines output ≠ [] →
      (parse_output output).2 ≠ Except.error PyError.indexError := by
  refine ⟨rfl, rfl, ?_⟩
  intro output hne
  have hsome : (py_splitlines output).getLast?.isSome :=
    List.getLast?_isSome.mpr hne
  obtain ⟨l, hl⟩ := Option.isSome_iff_exists.mp hsome
  cases hn : py_int l with
  | none => simp [parse_output, hl, hn]
  | some n => simp [parse_output, hl, hn]

theorem C10_parse_output_needs_a_line_witness :
    (parse_output "7").2 ≠ Except.error PyError.indexError :=
  C10_parse_output_needs_a_line.2.2 "7" (by decide)

/-- C7: process_inputs rewrites the token sequence elementwise and in
order: a token naming an existing path becomes the remote input folder,
a forward slash and the token's basename, any other token is passed through
unchanged; exactly the existing-path tokens are uploaded, in their original
order. -/
theorem C7_process_inputs_substitution (pathExists : String → Bool)
    (inputs_folder : String) (inputs : List String) :
    (process_inputs pathExists inputs_folder inputs).1 =
      inputs.map (fun t =>
        if pathExists t then inputs_folder ++ "/" ++ basename t else t) ∧
    (process_inputs pathExists inputs_folder inputs).2 =
      inputs.filter pathExists := by
  induction inputs with
  | nil => exact ⟨rfl, rfl⟩
  | cons t ts ih =>
    by_cases h : pathExists t = true
    · simp [process_inputs, h, ih.1, ih.2, List.filter]
    · have h' : pathExists t = false := by simpa using h
      simp [process_inputs, h', ih.1, ih.2, List.filter]

/-- C8: handling GET / has no side effects: index leaves the whole server
state (config dict, saved startup token, config file content) unchanged and
only computes the redirect target URL. -/
theorem C8_index_no_side_effects (st : ServerState) :
    (index st).1 = st ∧ (index st).2 = lwaUrl st.authDelegateDict :=
  ⟨rfl, rfl⟩

/-- C4: when the token endpoint's JSON body has no refresh_token field,
get_refresh_token leaves the server state, in particular the config file
content, untouched, and returns a body that embeds the provider's status
code and raw response text. -/
theorem C4_missing_refresh_token_is_read_only (wz : Bool) (st : ServerState)
    (resp : TokenResponse) (h : resp.refresh_token = none) :
    (get_refresh_token wz st resp).1 = st ∧
    (get_refresh_token wz st resp).1.fileContent = st.fileContent ∧
    (get_refresh_token wz st resp).2 =
      "LWA did not return a refresh token, with the response code " ++
      toString resp.status_code ++
      ".  This is most likely due to an error. Check the following JSON response:<br/>" ++
      resp.text ++ "<br/>" ++ shutdown wz ∧
    strContains (get_refresh_token wz st resp).2 resp.text = true ∧
    strContains (get_refresh_token wz st resp).2 (toString resp.status_code) = true := by
  refine ⟨by simp [get_refresh_token, h], by simp [get_refresh_token, h],
    by simp [get_refresh_token, h], ?_, ?_⟩
  · show containsStr resp.text.data (get_refresh_token wz st resp).2.data = true
    simp only [get_refresh_token, h, String.data_append, List.append_assoc]
    exact containsStr_extend _ _ _ (containsStr_extend _ _ _
      (containsStr_extend _ _ _ (containsStr_here _ _)))
  · show containsStr (toString resp.status_code).data
      (get_refresh_token wz st resp).2.data = true
    simp only [get_refresh_token, h, String.data_append, List.append_assoc]
    exact containsStr_extend _ _ _ (containsStr_here _ _)

theorem C4_missing_refresh_token_is_read_only_witness :
    (get_refresh_token true
      { authDelegateDict := [("clientId", "c")], defaultRefreshTokenString := "r",
        fileContent := "f" }
      { status_code := 400, text := "\x7b\"error\":\"invalid_grant\"\x7d",
        refresh_token := none }).1.fileContent = "f" :=
  (C4_missing_refresh_token_is_read_only true _ _ rfl).2.1

/-- C5: with every required field present and a refreshToken in the config,
a 200 from the grant_type=refresh_token request makes the process exit with
status 0 after that single network call, without the redirect route ever
being served; any other status logs the warning and proceeds to the
interactive flow, where GET / is served. -/
theorem C5_startup_refresh_validation (d : Dict) (status : Nat)
    (hreq : firstMissingKey d = none)
    (htok : hasKey d "refreshToken" = true) :
    (status = 200 →
      startup d status =
        { exitCode := some 0, networkCalls := 1,
          messages := ["You have a valid refresh token already in the file."] } ∧
      servedIndex d status = none) ∧
    (status ≠ 200 →
      (startup d status).exitCode = none ∧
      (startup d status).networkCalls = 1 ∧
      (startup d status).messages =
        ["The refresh request failed with the response code " ++ toString status ++
         ". This might be due to a bad refresh token or bad client data. " ++
         "We will continue with getting a refresh token, discarding the one in the file.\n"] ∧
      servedIndex d status = some (lwaUrl d)) := by
  constructor
  · intro h200
    subst h200
    exact ⟨by simp [startup, hreq, htok], by simp [servedIndex, startup, hreq, htok]⟩
  · intro hne
    have hb : (status == 200) = false := by simpa using hne
    refine ⟨?_, ?_, ?_, ?_⟩ <;> simp [startup, servedIndex, hreq, htok, hb]

theorem C5_startup_refresh_validation_witness :
    startup [("clientId", "c"), ("clientSecret", "s"), ("productId", "p"),
      ("deviceSerialNumber", "n"), ("refreshToken", "r")] 200 =
      { exitCode := some 0, networkCalls := 1,
        messages := ["You have a valid refresh token already in the file."] } :=
  ((C5_startup_refresh_validation
      [("clientId", "c"), ("clientSecret", "s"), ("productId", "p"),
       ("deviceSerialNumber", "n"), ("refreshToken", "r")] 200
      (by decide) (by decide)).1 rfl).1

/-- C3 counterexample: a config missing both clientId and clientSecret and
a config missing only clientId produce the very same startup diagnostic:
it names only clientId as the missing key (followed by the static list of
all four required keys), so it cannot be a listing of exactly the missing
fields.  Startup does exit 1 with no network call. -/
theorem C3_counterexample :
    hasKey [("productId", "p"), ("deviceSerialNumber", "n")] "clientSecret" = false ∧
    startup [("productId", "p"), ("deviceSerialNumber", "n")] 400 =
      { exitCode := some 1, networkCalls := 0,
        messages :=
          ["Missing key: \"clientId\". The list of required keys are:",
           " * clientId\n * clientSecret\n * productId\n * deviceSerialNumber",
           "Exiting."] } ∧
    startup [("productId", "p"), ("deviceSerialNumber", "n")] 400 =
      startup [("clientSecret", "s"), ("productId", "p"), ("deviceSerialNumber", "n")] 400 := by
  refine ⟨by decide, by decide, by decide⟩

/-- C3 amended: when any required field is missing, startup exits with
status 1 before any network call, and its diagnostic names the first
missing field in required-key order, followed by the static list of all
four required keys (not the set of missing fields). -/
theorem C3_first_missing_field_diagnostic (d : Dict) (status : Nat) (k : String)
    (h : firstMissingKey d = some k) :
    startup d status =
      { exitCode := some 1, networkCalls := 0,
        messages :=
          ["Missing key: \"" ++ k ++ "\". The list of required keys are:",
           " * clientId\n * clientSecret\n * productId\n * deviceSerialNumber",
           "Exiting."] } := by
  have hlist : " * " ++ String.intercalate "\n * " requiredKeys =
      " * clientId\n * clientSecret\n * productId\n * deviceSerialNumber" := by decide
  simp [startup, h, hlist]

/-- C2 counterexample: with the four identity fields present but the
refresh token absent, startup prints the missing-key notice and exits with
status 0 before app.run, so GET / is never served and no redirect is
produced. -/
theorem C2_counterexample :
    hasKey [("clientId", "c"), ("clientSecret", "s"), ("productId", "p"),
      ("deviceSerialNumber", "n")] "refreshToken" = false ∧
    startup [("clientId", "c"), ("clientSecret", "s"), ("productId", "p"),
      ("deviceSerialNumber", "n")] 400 =
      { exitCode := some 0, networkCalls := 0,
        messages := ["Missing key: \"refreshToken"] } ∧
    servedIndex [("clientId", "c"), ("clientSecret", "s"), ("productId", "p"),
      ("deviceSerialNumber", "n")] 400 = none := by
  refine ⟨by decide, by decide, by decide⟩

/-- C2 amended: restricted to configs whose refresh token is present but
invalid (the refresh POST does not return 200), and whose field values use
URL-safe characters, the server reaches app.run and GET / answers with a
redirect whose target contains response_type=code, the configured client
id, and the scope_data payload embedding the exact product id and device
serial number. -/
theorem C2_index_redirect_contents (d : Dict) (status : Nat)
    (hreq : firstMissingKey d = none)
    (htok : hasKey d "refreshToken" = true)
    (hst : status ≠ 200)
    (hcid : safeStr (getKey d "clientId") = true)
    (hpid : safeStr (getKey d "productId") = true)
    (hdsn : safeStr (getKey d "deviceSerialNumber") = true) :
    servedIndex d status = some (lwaUrl d) ∧
    strContains (lwaUrl d) "response_type=code" = true ∧
    strContains (lwaUrl d) ("client_id=" ++ getKey d "clientId") = true ∧
    strContains (lwaUrl d) ("scope_data=" ++ quote_plus (scopeData d)) = true ∧
    strContains (quote_plus (scopeData d)) (getKey d "productId") = true ∧
    strContains (quote_plus (scopeData d)) (getKey d "deviceSerialNumber") = true := by
  have hb : (status == 200) = false := by simpa using hst
  have hP : quote_plus (getKey d "clientId") = getKey d "clientId" :=
    quote_plus_safe _ hcid
  have hdata : (lwaUrl d).data =
      "https://www.amazon.com/ap/oa/?scope=alexa%3Aall&scope_data=".data ++
      ((quote_plus (scopeData d)).data ++
       ("&".data ++
        ("client_id=".data ++
         ((getKey d "clientId").data ++
          "&response_type=code&redirect_uri=http%3A%2F%2Flocalhost%3A3000%2Fauthresponse".data)))) := by
    simp only [lwaUrl, urlencodePairs, hP, String.data_append, List.append_assoc]
    rfl
  have hsdata : (quote_plus (scopeData d)).data =
      quotePlusList "\x7b\"alexa:all\":\x7b\"productID\":\"".data ++
      ((getKey d "productId").data ++
       (quotePlusList "\",\"productInstanceAttributes\":\x7b\"deviceSerialNumber\":\"".data ++
        ((getKey d "deviceSerialNumber").data ++
         quotePlusList "\"\x7d\x7d\x7d".data))) := by
    have h1 : (scopeData d).data =
        "\x7b\"alexa:all\":\x7b\"productID\":\"".data ++
        ((getKey d "productId").data ++
         ("\",\"productInstanceAttributes\":\x7b\"deviceSerialNumber\":\"".data ++
          ((getKey d "deviceSerialNumber").data ++ "\"\x7d\x7d\x7d".data))) := by
      simp only [scopeData, String.data_append, List.append_assoc]
    show quotePlusList (scopeData d).data = _
    rw [h1]
    simp only [quotePlusList_append, List.append_assoc,
      quotePlusList_safe _ hpid, quotePlusList_safe _ hdsn]
  refine ⟨?_, ?_, ?_, ?_, ?_, ?_⟩
  · simp [servedIndex, startup, hreq, htok, hb]
  · show containsStr "response_type=code".data (lwaUrl d).data = true
    rw [hdata]
    refine containsStr_extend _ _ _ (containsStr_extend _ _ _
      (containsStr_extend _ _ _ (containsStr_extend _ _ _
        (containsStr_extend _ _ _ ?_))))
    decide
  · show containsStr ("client_id=" ++ getKey d "clientId").data (lwaUrl d).data = true
    rw [hdata]
    refine containsStr_extend _ _ _ (containsStr_extend _ _ _
      (containsStr_extend _ _ _ ?_))
    have htgt : ("client_id=" ++ getKey d "clientId").data =
        "client_id=".data ++ (getKey d "clientId").data := by
      simp [String.data_append]
    rw [htgt, ← List.append_assoc]
    exact containsStr_here _ _
  · show containsStr ("scope_data=" ++ quote_plus (scopeData d)).data (lwaUrl d).data = true
    rw [hdata]
    have hsplit : "https://www.amazon.com/ap/oa/?scope=alexa%3Aall&scope_data=".data =
        "https://www.amazon.com/ap/oa/?scope=alexa%3Aall&".data ++ "scope_data=".data := by
      decide
    rw [hsplit, List.append_assoc]
    refine containsStr_extend _ _ _ ?_
    have htgt : ("scope_data=" ++ quote_plus (scopeData d)).data =
        "scope_data=".data ++ (quote_plus (scopeData d)).data := by
      simp [String.data_append]
    rw [htgt, ← List.append_assoc]
    exact containsStr_here _ _
  · show containsStr (getKey d "productId").data (quote_plus (scopeData d)).data = true
    rw [hsdata]
    exact containsStr_extend _ _ _ (containsStr_here _ _)
  · show containsStr (getKey d "deviceSerialNumber").data
      (quote_plus (scopeData d)).data = true
    rw [hsdata]
    exact containsStr_extend _ _ _ (containsStr_extend _ _ _
      (containsStr_extend _ _ _ (containsStr_here _ _)))

theorem C2_index_redirect_contents_witness :
    strContains
      (lwaUrl [("clientId", "amzn1-app-123"), ("clientSecret", "sec"),
        ("productId", "myProduct"), ("deviceSerialNumber", "12345"),
        ("refreshToken", "stale")])
      "response_type=code" = true :=
  (C2_index_redirect_contents
    [("clientId", "amzn1-app-123"), ("clientSecret", "sec"),
     ("productId", "myProduct"), ("deviceSerialNumber", "12345"),
     ("refreshToken", "stale")] 400
    (by decide) (by decide) (by decide) (by decide) (by decide) (by decide)).2.1

/-- C9: the persistence step is a textual re.sub of the whitespace-tolerant
pattern quote refreshToken quote, colon, quote, the startup-time token,
quote, comma; when that pattern does not occur in the file text, the file
is rewritten byte-identical to its previous content, the newly obtained
token is not persisted (it occurs in the rewritten file only if it already
occurred before), and the handler still returns the success page. -/
theorem C9_no_pattern_no_persistence (wz : Bool) (st : ServerState)
    (resp : TokenResponse) (tok : String)
    (hsome : resp.refresh_token = some tok)
    (hnomatch : atomsOccur (tokenPattern st.defaultRefreshTokenString)
      st.fileContent.data = false) :
    (get_refresh_token wz st resp).1.fileContent = st.fileContent ∧
    (get_refresh_token wz st resp).2 =
      "<h1>The file is written successfully.<br/>" ++ shutdown wz ++ "</h1>" ∧
    (strContains st.fileContent tok = false →
      strContains (get_refresh_token wz st resp).1.fileContent tok = false) := by
  have hfile : (get_refresh_token wz st resp).1.fileContent = st.fileContent := by
    simp [get_refresh_token, hsome, re_sub_id _ _ _ hnomatch]
  refine ⟨hfile, by simp [get_refresh_token, hsome], ?_⟩
  intro h
  rw [hfile]
  exact h

theorem C9_no_pattern_no_persistence_witness :
    (get_refresh_token true
      { authDelegateDict := [("refreshToken", "OLD")],
        defaultRefreshTokenString := "OLD",
        fileContent := "\x7b \"refreshToken\": \"OLD\" \x7d" }
      { status_code := 200, text := "", refresh_token := some "NEW" }).1.fileContent =
      "\x7b \"refreshToken\": \"OLD\" \x7d" :=
  (C9_no_pattern_no_persistence true
    { authDelegateDict := [("refreshToken", "OLD")],
      defaultRefreshTokenString := "OLD",
      fileContent := "\x7b \"refreshToken\": \"OLD\" \x7d" }
    { status_code := 200, text := "", refresh_token := some "NEW" }
    "NEW" rfl (by decide)).1

/-- C1: concrete run refuting the required persistence.  The token endpoint
returns refresh_token NEWTOKEN for the /authresponse exchange, yet because
lastFieldConfigFile stores refreshToken as the last field of authDelegate
(no trailing comma after its value) the re.sub pattern of AuthServer.py
lines 188-189 matches nowhere: the handler writes the file back
byte-identical, with refreshToken still OLDTOKEN and NEWTOKEN appearing
nowhere, while the response body still announces success. -/
theorem C1_token_not_persisted_on_last_field :
    (get_refresh_token true lastFieldServerState newTokenResponse).1.fileContent =
      lastFieldConfigFile ∧
    strContains lastFieldConfigFile "\"refreshToken\": \"OLDTOKEN\"" = true ∧
    strContains
      (get_refresh_token true lastFieldServerState newTokenResponse).1.fileContent
      "NEWTOKEN" = false ∧
    (get_refresh_token true lastFieldServerState newTokenResponse).2 =
      "<h1>The file is written successfully.<br/>Server is shutting down, so you can close this window.</h1>" := by
  refine ⟨by decide, by decide, by decide, by decide⟩

theorem C3_first_missing_field_diagnostic_witness :
    startup [("clientId", "c"), ("productId", "p")] 0 =
      { exitCode := some 1, networkCalls := 0,
        messages :=
          ["Missing key: \"clientSecret\". The list of required keys are:",
           " * clientId\n * clientSecret\n * productId\n * deviceSerialNumber",
           "Exiting."] } :=
  C3_first_missing_field_diagnostic [("clientId", "c"), ("productId", "p")] 0
    "clientSecret" (by decide)

